import Mathlib

/-!
Verification development for the network core of a lightweight Bitcoin SV
client (ElectrumSV).  The definitions below are a shallow embedding of the
functions in `electrumsv/network.py`: strings are `List Char`, Python
integers are `Int`/`Nat`, exceptions are an explicit error type, and the
effectful handlers are pure functions from their inputs (including oracles
for the blockchain-store and crypto collaborators) to an explicit
disposition describing what the handler did.
-/

/-- Python exception kinds that the embedded code can raise. -/
inductive PyError
  | valueError
  | assertionError
  | nameError
  | typeError
  | genericError (msg : List Char)
  | rpcError (msg : List Char)
  | timeoutError (msg : List Char)
  deriving Repr, DecidableEq

/-! ## String helpers shared by the embeddings

`strStartsWith n h` is Python's `h.startswith(n)`; `strContainsSub n h` is
Python's `n in h` (substring containment); `strEndsWith` is `h.endswith(n)`.
-/

/-- Python `h.startswith(n)` on character lists. -/
def strStartsWith : List Char → List Char → Bool
  | [], _ => true
  | _ :: _, [] => false
  | a :: as, b :: bs => a == b && strStartsWith as bs

/-- Python substring containment `n in h` on character lists. -/
def strContainsSub (n : List Char) : List Char → Bool
  | [] => n.isEmpty
  | b :: bs => strStartsWith n (b :: bs) || strContainsSub n bs

/-- Python `h.endswith(n)` on character lists. -/
def strEndsWith (n h : List Char) : Bool :=
  strStartsWith n.reverse h.reverse

/-- Python `int(s)` acceptance: an optional sign followed by one or more
digits.  Used to model `int(port)` throwing `ValueError` on bad input. -/
def py_int_ok (s : List Char) : Bool :=
  match s with
  | [] => false
  | c :: r =>
    if c = '+' || c = '-' then !r.isEmpty && r.all Char.isDigit
    else (c :: r).all Char.isDigit

/-- Split a character list at its last colon: `some (before, after)` where
`after` is colon-free, or `none` when the list has no colon.  This is the
last separator located by Python's `rsplit(':', ...)`. -/
def splitLastColon : List Char → Option (List Char × List Char)
  | [] => none
  | c :: cs =>
    match splitLastColon cs with
    | some (a, b) => some (c :: a, b)
    | none => if c = ':' then some ([], cs) else none

/-! ## Server identifier codec (`deserialize_server` / `serialize_server`)

Source:
```
def deserialize_server(server_str):
    host, port, protocol = str(server_str).rsplit(':', 2)
    assert protocol in 'st'
    int(port)    # Throw if cannot be converted to int
    return host, port, protocol

def serialize_server(host, port, protocol):
    return str(':'.join([host, port, protocol]))
```
`rsplit(':', 2)` splits at the two rightmost colons; unpacking into three
names raises `ValueError` when there are fewer than two colons.  The
`assert` uses Python's `in` on the two-character string `'st'`, which is
substring containment. -/

def deserialize_server (s : List Char) :
    Except PyError (List Char × List Char × List Char) :=
  match splitLastColon s with
  | none => .error .valueError
  | some (rest, protocol) =>
    match splitLastColon rest with
    | none => .error .valueError
    | some (host, port) =>
      if strContainsSub protocol ['s', 't'] then
        if py_int_ok port then .ok (host, port, protocol)
        else .error .valueError
      else .error .assertionError

def serialize_server (host port protocol : List Char) : List Char :=
  host ++ ':' :: port ++ ':' :: protocol

theorem splitLastColon_of_no_colon (l : List Char) (h : ':' ∉ l) :
    splitLastColon l = none := by
  induction l with
  | nil => rfl
  | cons c cs ih =>
    have hc : c ≠ ':' := fun hc => h (hc ▸ List.mem_cons_self c cs)
    have hcs : ':' ∉ cs := fun hm => h (List.mem_cons_of_mem c hm)
    simp [splitLastColon, ih hcs, hc]

theorem splitLastColon_append (a b : List Char) (h : ':' ∉ b) :
    splitLastColon (a ++ ':' :: b) = some (a, b) := by
  induction a with
  | nil => simp [splitLastColon, splitLastColon_of_no_colon b h]
  | cons c cs ih => simp [splitLastColon, ih]

theorem py_int_ok_no_colon (p : List Char) (h : py_int_ok p = true) :
    ':' ∉ p := by
  have hdig : ∀ (r : List Char), r.all Char.isDigit = true → ':' ∉ r := by
    intro r hr hm
    have := List.all_eq_true.mp hr ':' hm
    simp [Char.isDigit] at this
  intro hm
  cases p with
  | nil => simp [py_int_ok] at h
  | cons c r =>
    by_cases hc : c = '+' || c = '-'
    · have hr : r.all Char.isDigit = true := by
        rw [py_int_ok, if_pos hc, Bool.and_eq_true] at h
        exact h.2
      have h3 : c = '+' ∨ c = '-' := by simpa using hc
      rcases List.mem_cons.mp hm with h1 | h2
      · rcases h3 with h4 | h4 <;> subst h4 <;> exact absurd h1 (by decide)
      · exact hdig r hr h2
    · rw [py_int_ok, if_neg hc] at h
      exact hdig (c :: r) h hm

theorem strStartsWith_nil_right (p : List Char) (h : strStartsWith p [] = true) :
    p = [] := by
  cases p with
  | nil => rfl
  | cons c r => simp [strStartsWith] at h

theorem strStartsWith_t (p : List Char) (h : strStartsWith p ['t'] = true) :
    p = [] ∨ p = ['t'] := by
  cases p with
  | nil => exact Or.inl rfl
  | cons c r =>
    refine Or.inr ?_
    rw [strStartsWith, Bool.and_eq_true] at h
    have hc : c = 't' := by simpa using h.1
    have hr : r = [] := strStartsWith_nil_right r h.2
    simp [hc, hr]

theorem strStartsWith_st (p : List Char) (h : strStartsWith p ['s', 't'] = true) :
    p = [] ∨ p = ['s'] ∨ p = ['s', 't'] := by
  cases p with
  | nil => exact Or.inl rfl
  | cons c r =>
    rw [strStartsWith, Bool.and_eq_true] at h
    have hc : c = 's' := by simpa using h.1
    rcases strStartsWith_t r h.2 with hr | hr
    · exact Or.inr (Or.inl (by simp [hc, hr]))
    · exact Or.inr (Or.inr (by simp [hc, hr]))

theorem strContainsSub_st (p : List Char) (h : strContainsSub p ['s', 't'] = true) :
    p = [] ∨ p = ['s'] ∨ p = ['t'] ∨ p = ['s', 't'] := by
  rw [strContainsSub, strContainsSub, strContainsSub, Bool.or_eq_true,
    Bool.or_eq_true] at h
  rcases h with h | h | h
  · rcases strStartsWith_st p h with h1 | h1 | h1
    · exact Or.inl h1
    · exact Or.inr (Or.inl h1)
    · exact Or.inr (Or.inr (Or.inr h1))
  · rcases strStartsWith_t p h with h1 | h1
    · exact Or.inl h1
    · exact Or.inr (Or.inr (Or.inl h1))
  · exact Or.inl (by simpa using h)

/-- C7 counterexample: the input `"h:1:"` has protocol component `""`,
which is not in `{s, t}`, yet `deserialize_server` accepts it (Python's
`'' in 'st'` is `True`) and returns a tuple whose protocol is outside the
set, contradicting the claim that such inputs raise a parse error. -/
theorem deserialize_server_accepts_empty_protocol :
    deserialize_server ("h:1:".data) =
        Except.ok ("h".data, "1".data, "".data) ∧
      "".data ≠ "s".data ∧ "".data ≠ "t".data :=
  ⟨rfl, by decide, by decide⟩

/-- C7 (amended): `deserialize_server` rejects (raises) whenever the
protocol component is not a substring of `'st'` or the port is not an
integer; consequently any successfully returned protocol is one of
`''`, `'s'`, `'t'`, `'st'` (not merely `'s'`/`'t'`), and the returned
port always parses as an integer. -/
theorem deserialize_server_protocol_substring (s host port protocol : List Char)
    (h : deserialize_server s = .ok (host, port, protocol)) :
    (protocol = [] ∨ protocol = ['s'] ∨ protocol = ['t'] ∨ protocol = ['s', 't'])
      ∧ py_int_ok port = true := by
  unfold deserialize_server at h
  split at h
  · exact absurd h (by simp)
  · rename_i rest proto heq1
    split at h
    · exact absurd h (by simp)
    · rename_i ho po heq2
      split at h
      · rename_i h3
        split at h
        · rename_i h4
          cases h
          exact ⟨strContainsSub_st protocol h3, h4⟩
        · exact absurd h (by simp)
      · exact absurd h (by simp)

theorem deserialize_server_protocol_substring_witness :
    ("t".data = [] ∨ "t".data = ['s'] ∨ "t".data = ['t'] ∨ "t".data = ['s', 't'])
      ∧ py_int_ok ("50002".data) = true :=
  deserialize_server_protocol_substring ("a.example.com:50002:t".data)
    "a.example.com".data "50002".data "t".data rfl

/-- C8: round-trip identity.  For any valid serialized server string
`s = host ++ ":" ++ port ++ ":" ++ protocol` with protocol `s` or `t` and
an integer port, `deserialize_server s` succeeds with exactly that triple
and `serialize_server` on the triple yields `s` again. -/
theorem serialize_deserialize_round_trip (s host port protocol : List Char)
    (hs : s = host ++ ':' :: port ++ ':' :: protocol)
    (hp : protocol = ['s'] ∨ protocol = ['t'])
    (hint : py_int_ok port = true) :
    deserialize_server s = .ok (host, port, protocol) ∧
      serialize_server host port protocol = s := by
  subst hs
  have hnp : ':' ∉ protocol := by
    rcases hp with h | h <;> subst h <;> decide
  have hno : ':' ∉ port := py_int_ok_no_colon port hint
  have hassoc : host ++ ':' :: port ++ ':' :: protocol
      = (host ++ ':' :: port) ++ ':' :: protocol := by
    simp
  constructor
  · have hsub : strContainsSub protocol ['s', 't'] = true := by
      rcases hp with h | h <;> subst h <;> decide
    unfold deserialize_server
    rw [hassoc]
    simp only [splitLastColon_append _ _ hnp, splitLastColon_append _ _ hno]
    rw [if_pos hsub, if_pos hint]
  · rfl

theorem serialize_deserialize_round_trip_witness :
    deserialize_server ("h.example.org:50001:s".data) =
        .ok ("h.example.org".data, "50001".data, "s".data) ∧
      serialize_server "h.example.org".data "50001".data "s".data =
        "h.example.org:50001:s".data :=
  serialize_deserialize_round_trip ("h.example.org:50001:s".data)
    "h.example.org".data "50001".data "s".data (by decide) (Or.inl rfl)
    (by decide)

/-! ## Header-sync state driver

Shallow embedding of `Network._on_header`, `Network._process_latest_tip`
and `Network._on_block_headers`.  Heights are `Int` (Python integers);
the blockchain store's `connect`/`connect_chunk` and the Merkle-proof
verifier `_validate_checkpoint_result` are external collaborators, so
their outcomes enter as oracle arguments.  Each handler returns its
updated interface state together with an explicit decision describing
which action the source takes on that path (`_connection_down` with or
without `blacklist=True`, a follow-up request, or an uncaught Python
exception). -/

inductive Mode
  | VERIFICATION
  | BACKWARD
  | BINARY
  | CATCH_UP
  | DEFAULT
  deriving Repr, DecidableEq

structure HeaderIface where
  mode : Mode
  tip : Int
  good : Int
  bad : Int
  blockchainAttached : Bool
  deriving Repr, DecidableEq

/-- Outcome of `Blockchain.connect` (raises on failure). -/
inductive ConnectOutcome
  | ok
  | missingHeader
  | incorrectBits
  | insufficientPoW
  deriving Repr, DecidableEq

/-- Shape of a `blockchain.block.header` response result: which of the
checkpoint-proof keys (`root`, `branch`, `header`) are present. -/
structure HeaderResult where
  hasRoot : Bool
  hasBranch : Bool
  hasHeader : Bool
  deriving Repr, DecidableEq

inductive HeaderDecision
  | disconnect
  | blacklist
  | requestHeader (h : Int)
  | requestChunk (base count : Int)
  | finishDefault
  | ignoredDefaultHeader
  | nameError
  | assertFailed
  deriving Repr, DecidableEq

/-- Whether a decision corresponds to `_connection_down(server, blacklist=True)`
(the server is added to `blacklisted_servers` and its interface closed). -/
def headerDecisionBlacklists : HeaderDecision → Bool
  | .blacklist => true
  | _ => false

/-- Whether a decision corresponds to a plain `_connection_down(server)`
(the server is added to `disconnected_servers`, not blacklisted). -/
def headerDecisionDisconnects : HeaderDecision → Bool
  | .disconnect => true
  | _ => false

/-- The common tail of `_on_header` (`if next_height: ... else: ...`).
Python's truthiness treats both `None` and `0` as "finished".  A follow-up
in CATCH_UP mode with `tip > next_height` is a 1000-header chunk request,
otherwise a single header request. -/
def header_request_tail (iface : HeaderIface) (next : Option Int) :
    HeaderIface × HeaderDecision :=
  match next with
  | some n =>
    if n ≠ 0 then
      if iface.mode = Mode.CATCH_UP ∧ iface.tip > n then
        (iface, .requestChunk n 1000)
      else
        (iface, .requestHeader n)
    else
      ({ iface with mode := Mode.DEFAULT }, .finishDefault)
  | none => ({ iface with mode := Mode.DEFAULT }, .finishDefault)

/-- The per-mode dispatch of `_on_header` after `Blockchain.connect` has
run: `connected` is the truthiness of `interface.blockchain` (set on
success, cleared on `MissingHeader`), and equally whether the local
`_header` got bound.  In DEFAULT mode the failure path evaluates a log
message referencing `_header`, which is unbound when the header did not
connect, hence `nameError`; in VERIFICATION mode no branch assigns
`next_height`, so the trailing `if next_height:` is a `NameError` too. -/
def header_mode_dispatch (VBH : Int) (iface : HeaderIface) (height : Int)
    (connected : Bool) : HeaderIface × HeaderDecision :=
  match iface.mode with
  | Mode.BACKWARD =>
    if connected then
      let iface' := { iface with mode := Mode.BINARY, good := height }
      header_request_tail iface' (some ((iface'.bad + iface'.good).fdiv 2))
    else
      if VBH < height then
        let iface' := { iface with bad := height }
        let delta := iface.tip - height
        header_request_tail iface' (some (max (VBH + 1) (iface.tip - 2 * delta)))
      else
        (iface, .assertFailed)
  | Mode.BINARY =>
    let iface' := if connected then { iface with good := height }
                  else { iface with bad := height }
    let next := (iface'.bad + iface'.good).fdiv 2
    let iface'' := if next = iface'.good then { iface' with mode := Mode.CATCH_UP }
                   else iface'
    header_request_tail iface'' (some next)
  | Mode.CATCH_UP =>
    if connected then
      let next := if height < iface.tip then some (height + 1) else none
      -- on `none` the source logs catch-up done, clears the fork's
      -- `catch_up`, switches a lagging default and notifies before the tail
      header_request_tail iface next
    else
      let iface' := { iface with mode := Mode.BACKWARD, bad := height }
      header_request_tail iface' (some (height - 1))
  | Mode.DEFAULT =>
    if connected then (iface, .ignoredDefaultHeader)
    else (iface, .nameError)
  | Mode.VERIFICATION => (iface, .nameError)

/-- `Network._on_header`: handle a `blockchain.block.header` response.
`request` is the solicited height (`None` for an unsolicited header),
`responseHeight` is `response['params'][0]`, `validate` the verdict of
`_validate_checkpoint_result`, `connect` the outcome of
`Blockchain.connect`. -/
def on_header (VBH : Int) (iface : HeaderIface) (request : Option Int)
    (responseHeight : Int) (result : Option HeaderResult)
    (validate : Bool) (connect : ConnectOutcome) :
    HeaderIface × HeaderDecision :=
  match result with
  | none => (iface, .disconnect)
  | some res =>
    match request with
    | none => (iface, .blacklist)
    | some height =>
      if height ≠ responseHeight then
        (iface, .disconnect)
      else
        if res.hasRoot && res.hasBranch && res.hasHeader && !validate then
          -- checkpoint proof supplied and failed: plain disconnect
          (iface, .disconnect)
        else
          match connect with
          | .incorrectBits => (iface, .blacklist)
          | .insufficientPoW => (iface, .blacklist)
          | .ok => header_mode_dispatch VBH
              { iface with blockchainAttached := true } height true
          | .missingHeader => header_mode_dispatch VBH
              { iface with blockchainAttached := false } height false

inductive TipDecision
  | notDefaultMode
  | blacklist
  | connectedTip
  | backwardRequest (h : Int)
  | catchUpRequest (h : Int)
  | chainBusy
  deriving Repr, DecidableEq

/-- `Network._process_latest_tip`: `localTip` is `max` of the local
forks' heights, `chainFree` whether `Blockchain.longest().catch_up` is
`None`, `connect` the outcome of connecting the announced tip header. -/
def process_latest_tip (VBH : Int) (iface : HeaderIface)
    (connect : ConnectOutcome) (localTip : Int) (chainFree : Bool) :
    HeaderIface × TipDecision :=
  if iface.mode ≠ Mode.DEFAULT then
    (iface, .notDefaultMode)
  else
    match connect with
    | .ok => ({ iface with blockchainAttached := true }, .connectedTip)
    | .incorrectBits => (iface, .blacklist)
    | .insufficientPoW => (iface, .blacklist)
    | .missingHeader =>
      let height := iface.tip
      if localTip > VBH then
        ({ iface with mode := Mode.BACKWARD, bad := height },
          .backwardRequest (min localTip (height - 1)))
      else
        if chainFree then
          ({ iface with mode := Mode.CATCH_UP, blockchainAttached := true },
            .catchUpRequest (VBH + 1))
        else
          (iface, .chainBusy)

/-! ## Chunk handler (`_on_block_headers`) -/

/-- Shape of a `blockchain.block.headers` response result: the byte
length of the decoded `hex` field and which proof keys are present. -/
structure ChunkResult where
  rawLen : Nat
  hasRoot : Bool
  hasBranch : Bool
  deriving Repr, DecidableEq

structure ChunkIface where
  mode : Mode
  tip : Int
  requested_chunks : List (Int × Int × Int)
  deriving Repr, DecidableEq

inductive ChunkDisposition
  | badResponse
  | unsolicited
  | oversized
  | noProofDisconnect
  | proofFailBlacklist
  | connectFailBlacklist
  | connectedRequestMore (base count : Int)
  | connectedDone
  | connectedWaiting
  deriving Repr, DecidableEq

/-- Dispositions on which the source calls `_connection_down(server, blacklist=True)`. -/
def chunkDispositionBlacklists : ChunkDisposition → Bool
  | .proofFailBlacklist => true
  | .connectFailBlacklist => true
  | _ => false

/-- Dispositions on which the source calls plain `_connection_down(server)`. -/
def chunkDispositionDisconnects : ChunkDisposition → Bool
  | .noProofDisconnect => true
  | _ => false

/-- Dispositions on which `Blockchain.connect_chunk` was reached and
succeeded, i.e. the chunk was connected to the header store. -/
def chunkDispositionConnects : ChunkDisposition → Bool
  | .connectedRequestMore _ _ => true
  | .connectedDone => true
  | .connectedWaiting => true
  | _ => false

/-- Failure raised by `Blockchain.connect_chunk` (all three kinds are
caught by one `except` clause and blacklisted). -/
inductive ChunkConnectErr
  | missingHeader
  | incorrectBits
  | insufficientPoW
  deriving Repr, DecidableEq

structure ChunkOutcome where
  disposition : ChunkDisposition
  subscribedAllHeaders : Bool
  deriving Repr, DecidableEq

/-- `Network._on_block_headers`: handle a chunk of block headers.
`request` carries the request params `(base_height, expected_count,
cp_height)`; `validate` is the verdict of `_validate_checkpoint_result`;
`connectChunk` the outcome of `Blockchain.connect_chunk` (new fork height
on success); `wereNeeded` is `Blockchain.needs_checkpoint_headers` before
the connect and `stillNeeded` the `(start, count)` that
`required_checkpoint_headers()` reports afterwards
(`_request_checkpoint_headers` issues that chunk request and reports
`count != 0`).  `actual_header_count` is `len(bfh(hex)) // 80`; a chunk
with more headers than requested is logged and the handler returns with
no further action. -/
def on_block_headers (iface : ChunkIface) (request : Option (Int × Int × Int))
    (error : Option (List Char)) (result : Option ChunkResult)
    (hasParams : Bool) (validate : Bool)
    (connectChunk : Except ChunkConnectErr Int)
    (wereNeeded : Bool) (stillNeeded : Int × Int) :
    ChunkIface × ChunkOutcome :=
  match request, result with
  | none, _ => (iface, ⟨.badResponse, false⟩)
  | _, none => (iface, ⟨.badResponse, false⟩)
  | some reqParams, some res =>
    if error ≠ none ∨ ¬hasParams then
      (iface, ⟨.badResponse, false⟩)
    else
      let expectedCount := reqParams.2.1
      let cpHeight := reqParams.2.2
      if reqParams ∉ iface.requested_chunks then
        (iface, ⟨.unsolicited, false⟩)
      else
        let iface := { iface with
          requested_chunks := iface.requested_chunks.erase reqParams }
        let actualCount : Int := (res.rawLen / 80 : Nat)
        if actualCount > expectedCount then
          (iface, ⟨.oversized, false⟩)
        else
          if res.hasRoot && res.hasBranch && !validate then
            (iface, ⟨.proofFailBlacklist, false⟩)
          else
            if !(res.hasRoot && res.hasBranch) ∧ cpHeight ≠ 0 then
              (iface, ⟨.noProofDisconnect, false⟩)
            else
              match connectChunk with
              | .error _ => (iface, ⟨.connectFailBlacklist, false⟩)
              | .ok forkHeight =>
                -- `_request_checkpoint_headers` re-requests when count != 0
                let subscribed := wereNeeded && stillNeeded.2 = 0
                let outstanding := ¬iface.requested_chunks.isEmpty
                  || (wereNeeded && stillNeeded.2 ≠ 0)
                if outstanding then
                  (iface, ⟨.connectedWaiting, subscribed⟩)
                else
                  if forkHeight < iface.tip then
                    (iface, ⟨.connectedRequestMore forkHeight 1000, subscribed⟩)
                  else
                    ({ iface with mode := Mode.DEFAULT },
                      ⟨.connectedDone, subscribed⟩)

/-- C2 counterexample: with checkpoint height 100, a peer announcing tip
101 (which passes the `tip <= checkpoint` drop check) whose tip header
does not connect, while the local longest fork is at 105, makes the
driver enter BACKWARD and immediately request height
`min(105, 101 - 1) = 100`, which is NOT strictly greater than the
checkpoint height. -/
theorem backward_entry_requests_checkpoint_height :
    process_latest_tip 100 ⟨Mode.DEFAULT, 101, 0, 0, false⟩
        ConnectOutcome.missingHeader 105 true
      = (⟨Mode.BACKWARD, 101, 0, 101, false⟩, TipDecision.backwardRequest 100)
      ∧ ¬((100 : Int) > 100) := by
  decide

/-- C2 (amended): the BACKWARD backoff follow-up request is at
`max(checkpoint_height + 1, tip - 2*delta)`, strictly above the
checkpoint; the first request issued on entering BACKWARD is at
`min(local_tip, tip_height - 1)` which is only guaranteed to be `>=`
the checkpoint height (it equals it when `tip_height = checkpoint + 1`),
and likewise the BACKWARD request issued after a CATCH_UP header fails
to connect is at `height - 1 >= checkpoint_height`. -/
theorem backward_request_height_bounds :
    (∀ (VBH : Int) (iface : HeaderIface) (height : Int),
      iface.mode = Mode.BACKWARD → 0 < VBH → VBH < height →
        header_mode_dispatch VBH iface height false
          = ({ iface with bad := height },
              HeaderDecision.requestHeader
                (max (VBH + 1) (iface.tip - 2 * (iface.tip - height))))
          ∧ VBH < max (VBH + 1) (iface.tip - 2 * (iface.tip - height))) ∧
    (∀ (VBH : Int) (iface : HeaderIface) (localTip : Int) (chainFree : Bool),
      iface.mode = Mode.DEFAULT → VBH < iface.tip → VBH < localTip →
        (process_latest_tip VBH iface ConnectOutcome.missingHeader localTip
              chainFree).2
          = TipDecision.backwardRequest (min localTip (iface.tip - 1))
          ∧ VBH ≤ min localTip (iface.tip - 1)) ∧
    (∀ (VBH : Int) (iface : HeaderIface) (height : Int),
      iface.mode = Mode.CATCH_UP → 0 < VBH → VBH < height →
        header_mode_dispatch VBH iface height false
          = ({ iface with mode := Mode.BACKWARD, bad := height },
              HeaderDecision.requestHeader (height - 1))
          ∧ VBH ≤ height - 1) := by
  refine ⟨?_, ?_, ?_⟩
  · intro VBH iface height hm h0 hh
    have hmax : VBH < max (VBH + 1) (iface.tip - 2 * (iface.tip - height)) :=
      lt_of_lt_of_le (by omega) (le_max_left _ _)
    refine ⟨?_, hmax⟩
    obtain ⟨m, tip, good, bad, batt⟩ := iface
    simp only [HeaderIface.mk.injEq] at hm ⊢
    subst hm
    simp only [header_mode_dispatch, header_request_tail, if_pos hh]
    have hne : max (VBH + 1) (tip - 2 * (tip - height)) ≠ 0 := by
      have := le_max_left (VBH + 1) (tip - 2 * (tip - height))
      omega
    simp only [Bool.false_eq_true, if_false, hne, ite_true, if_pos hne]
    simp
  · intro VBH iface localTip chainFree hm ht hl
    have hle : VBH ≤ min localTip (iface.tip - 1) :=
      le_min (by omega) (by omega)
    refine ⟨?_, hle⟩
    obtain ⟨m, tip, good, bad, batt⟩ := iface
    simp only at hm
    subst hm
    simp only [process_latest_tip]
    rw [if_neg (by simp)]
    rw [if_pos (by simpa using hl)]
  · intro VBH iface height hm h0 hh
    refine ⟨?_, by omega⟩
    obtain ⟨m, tip, good, bad, batt⟩ := iface
    simp only at hm
    subst hm
    simp only [header_mode_dispatch, header_request_tail, Bool.false_eq_true,
      if_false]
    have hne : height - 1 ≠ 0 := by omega
    simp [hne]

theorem backward_request_height_bounds_witness :
    (header_mode_dispatch 100 ⟨Mode.BACKWARD, 110, 0, 0, false⟩ 108 false
        = (⟨Mode.BACKWARD, 110, 0, 108, false⟩,
            HeaderDecision.requestHeader (max (100 + 1) (110 - 2 * (110 - 108))))
      ∧ (100 : Int) < max (100 + 1) (110 - 2 * (110 - 108))) ∧
    ((process_latest_tip 100 ⟨Mode.DEFAULT, 103, 0, 0, false⟩
          ConnectOutcome.missingHeader 105 true).2
        = TipDecision.backwardRequest (min 105 (103 - 1))
      ∧ (100 : Int) ≤ min 105 (103 - 1)) ∧
    (header_mode_dispatch 100 ⟨Mode.CATCH_UP, 110, 0, 0, false⟩ 101 false
        = (⟨Mode.BACKWARD, 110, 0, 101, false⟩,
            HeaderDecision.requestHeader (101 - 1))
      ∧ (100 : Int) ≤ 101 - 1) :=
  ⟨backward_request_height_bounds.1 100 ⟨Mode.BACKWARD, 110, 0, 0, false⟩ 108
      rfl (by decide) (by decide),
    backward_request_height_bounds.2.1 100 ⟨Mode.DEFAULT, 103, 0, 0, false⟩ 105
      true rfl (by decide) (by decide),
    backward_request_height_bounds.2.2 100 ⟨Mode.CATCH_UP, 110, 0, 0, false⟩ 101
      rfl (by decide) (by decide)⟩

/-- C10: in DEFAULT mode, when `Blockchain.connect` raised `MissingHeader`
the local `_header` was never bound, and the log line of the DEFAULT
branch references it, so the handler raises `NameError`; the branch
completes (logging and ignoring the header) exactly when the header
connected. -/
theorem default_mode_header_name_error (VBH : Int) (iface : HeaderIface)
    (height : Int) (res : HeaderResult) (validate : Bool)
    (hmode : iface.mode = Mode.DEFAULT)
    (hproof : (res.hasRoot && res.hasBranch && res.hasHeader) = true →
      validate = true) :
    on_header VBH iface (some height) height (some res) validate
        ConnectOutcome.missingHeader
      = ({ iface with blockchainAttached := false }, HeaderDecision.nameError)
    ∧ on_header VBH iface (some height) height (some res) validate
        ConnectOutcome.ok
      = ({ iface with blockchainAttached := true },
          HeaderDecision.ignoredDefaultHeader) := by
  have hguard : (res.hasRoot && res.hasBranch && res.hasHeader && !validate)
      = false := by
    cases hpp : (res.hasRoot && res.hasBranch && res.hasHeader) with
    | false => simp [hpp]
    | true => simp [hpp, hproof hpp]
  constructor <;>
    simp [on_header, hguard, header_mode_dispatch, hmode]

theorem default_mode_header_name_error_witness :
    (on_header 100 ⟨Mode.DEFAULT, 110, 0, 0, false⟩ (some 105) 105
        (some ⟨false, false, false⟩) false ConnectOutcome.missingHeader
      = (⟨Mode.DEFAULT, 110, 0, 0, false⟩, HeaderDecision.nameError))
    ∧ (on_header 100 ⟨Mode.DEFAULT, 110, 0, 0, false⟩ (some 105) 105
        (some ⟨false, false, false⟩) false ConnectOutcome.ok
      = (⟨Mode.DEFAULT, 110, 0, 0, true⟩, HeaderDecision.ignoredDefaultHeader)) :=
  default_mode_header_name_error 100 ⟨Mode.DEFAULT, 110, 0, 0, false⟩ 105
    ⟨false, false, false⟩ false rfl (by decide)

/-- C1 counterexample: a single-header response that carries checkpoint
proof data (`root`, `branch`, `header`) whose proof fails verification is
answered with a plain `_connection_down(server)` — the server is added to
`disconnected_servers` and NOT blacklisted, contradicting the claim that
every failed supplied proof leads to blacklisting. -/
theorem single_header_proof_failure_only_disconnects :
    on_header 100 ⟨Mode.BACKWARD, 110, 0, 0, false⟩ (some 105) 105
        (some ⟨true, true, true⟩) false ConnectOutcome.ok
      = (⟨Mode.BACKWARD, 110, 0, 0, false⟩, HeaderDecision.disconnect)
    ∧ headerDecisionBlacklists HeaderDecision.disconnect = false := by
  decide

/-- C1 (amended): a failed checkpoint proof on a chunk response
(`blockchain.block.headers`) blacklists the server, while a failed
checkpoint proof on a single-header response (`blockchain.block.header`)
only disconnects it (no blacklist). -/
theorem proof_failure_disposition :
    (∀ (VBH : Int) (iface : HeaderIface) (height : Int) (res : HeaderResult)
        (c : ConnectOutcome),
      res.hasRoot = true → res.hasBranch = true → res.hasHeader = true →
        on_header VBH iface (some height) height (some res) false c
          = (iface, HeaderDecision.disconnect)
        ∧ headerDecisionBlacklists HeaderDecision.disconnect = false) ∧
    (∀ (iface : ChunkIface) (p : Int × Int × Int) (res : ChunkResult)
        (cc : Except ChunkConnectErr Int) (wn : Bool) (sn : Int × Int),
      p ∈ iface.requested_chunks → res.hasRoot = true → res.hasBranch = true →
      ((res.rawLen / 80 : Nat) : Int) ≤ p.2.1 →
        on_block_headers iface (some p) none (some res) true false cc wn sn
          = ({ iface with
                requested_chunks := iface.requested_chunks.erase p },
              ⟨ChunkDisposition.proofFailBlacklist, false⟩)
        ∧ chunkDispositionBlacklists ChunkDisposition.proofFailBlacklist
            = true) := by
  constructor
  · intro VBH iface height res c hr hb hh
    refine ⟨?_, rfl⟩
    simp [on_header, hr, hb, hh]
  · intro iface p res cc wn sn hmem hr hb hcnt
    refine ⟨?_, rfl⟩
    simp only [on_block_headers]
    rw [if_neg (by simp)]
    rw [if_neg (by simpa using hmem)]
    rw [if_neg (by simpa using hcnt)]
    rw [if_pos (by simp [hr, hb])]

theorem proof_failure_disposition_witness :
    (on_header 100 ⟨Mode.BINARY, 110, 0, 0, false⟩ (some 104) 104
        (some ⟨true, true, true⟩) false ConnectOutcome.ok
      = (⟨Mode.BINARY, 110, 0, 0, false⟩, HeaderDecision.disconnect)
      ∧ headerDecisionBlacklists HeaderDecision.disconnect = false) ∧
    (on_block_headers ⟨Mode.CATCH_UP, 2000, [(0, 4, 100)]⟩ (some (0, 4, 100))
        none (some ⟨320, true, true⟩) true false (Except.ok 3) false (0, 0)
      = (⟨Mode.CATCH_UP, 2000, []⟩,
          ⟨ChunkDisposition.proofFailBlacklist, false⟩)
      ∧ chunkDispositionBlacklists ChunkDisposition.proofFailBlacklist
          = true) :=
  ⟨proof_failure_disposition.1 100 ⟨Mode.BINARY, 110, 0, 0, false⟩ 104
      ⟨true, true, true⟩ ConnectOutcome.ok rfl rfl rfl,
    proof_failure_disposition.2 ⟨Mode.CATCH_UP, 2000, [(0, 4, 100)]⟩
      (0, 4, 100) ⟨320, true, true⟩ (Except.ok 3) false (0, 0)
      (by decide) rfl rfl (by decide)⟩

/-- C3 counterexample: a solicited chunk answering a 2-header request with
3 headers (240 raw bytes) is logged and dropped — the handler returns
without connecting the chunk, but also without adding the server to
`disconnected_servers`: no `_connection_down` call happens on this path,
contradicting the claim that the interface is disconnected. -/
theorem oversized_chunk_ignored_without_disconnect :
    on_block_headers ⟨Mode.CATCH_UP, 2000, [(0, 2, 0)]⟩ (some (0, 2, 0)) none
        (some ⟨240, false, false⟩) true true (Except.ok 5) false (0, 0)
      = (⟨Mode.CATCH_UP, 2000, []⟩, ⟨ChunkDisposition.oversized, false⟩)
    ∧ chunkDispositionDisconnects ChunkDisposition.oversized = false
    ∧ chunkDispositionBlacklists ChunkDisposition.oversized = false
    ∧ chunkDispositionConnects ChunkDisposition.oversized = false := by
  decide

/-- C3 (amended): a chunk with more headers than requested is rejected
without being connected, but by silently ignoring it (no disconnect and
no blacklist); a chunk with `0 < n < requested` headers that passes the
proof checks and connects is accepted. -/
theorem chunk_count_handling :
    (∀ (iface : ChunkIface) (p : Int × Int × Int) (res : ChunkResult)
        (v : Bool) (cc : Except ChunkConnectErr Int) (wn : Bool)
        (sn : Int × Int),
      p ∈ iface.requested_chunks →
      ((res.rawLen / 80 : Nat) : Int) > p.2.1 →
        on_block_headers iface (some p) none (some res) true v cc wn sn
          = ({ iface with
                requested_chunks := iface.requested_chunks.erase p },
              ⟨ChunkDisposition.oversized, false⟩)
        ∧ chunkDispositionDisconnects ChunkDisposition.oversized = false
        ∧ chunkDispositionBlacklists ChunkDisposition.oversized = false
        ∧ chunkDispositionConnects ChunkDisposition.oversized = false) ∧
    (∀ (iface : ChunkIface) (p : Int × Int × Int) (res : ChunkResult)
        (v : Bool) (fh : Int) (wn : Bool) (sn : Int × Int),
      p ∈ iface.requested_chunks →
      0 < ((res.rawLen / 80 : Nat) : Int) →
      ((res.rawLen / 80 : Nat) : Int) < p.2.1 →
      ((res.hasRoot && res.hasBranch) = true → v = true) →
      ((res.hasRoot && res.hasBranch) = false → p.2.2 = 0) →
        chunkDispositionConnects
          (on_block_headers iface (some p) none (some res) true v
              (Except.ok fh) wn sn).2.disposition = true) := by
  constructor
  · intro iface p res v cc wn sn hmem hcnt
    refine ⟨?_, rfl, rfl, rfl⟩
    simp only [on_block_headers]
    rw [if_neg (by simp)]
    rw [if_neg (by simpa using hmem)]
    rw [if_pos hcnt]
  · intro iface p res v fh wn sn hmem hpos hcnt hv hcp
    simp only [on_block_headers]
    rw [if_neg (by simp)]
    rw [if_neg (by simpa using hmem)]
    rw [if_neg (by simpa using not_lt.mpr (le_of_lt hcnt))]
    have hguard : (res.hasRoot && res.hasBranch && !v) = false := by
      cases hpp : (res.hasRoot && res.hasBranch) with
      | false => simp [hpp]
      | true => simp [hpp, hv hpp]
    rw [if_neg (by simp [hguard])]
    have hnp : ¬((!(res.hasRoot && res.hasBranch)) = true ∧ p.2.2 ≠ 0) := by
      cases hpp : (res.hasRoot && res.hasBranch) with
      | true => simp [hpp]
      | false => simp [hpp, hcp hpp]
    rw [if_neg hnp]
    split <;> first | rfl | (split <;> rfl)

theorem chunk_count_handling_witness :
    (on_block_headers ⟨Mode.CATCH_UP, 2000, [(0, 3, 0)]⟩ (some (0, 3, 0)) none
        (some ⟨400, false, false⟩) true true (Except.ok 5) false (0, 0)
      = (⟨Mode.CATCH_UP, 2000, []⟩, ⟨ChunkDisposition.oversized, false⟩)
      ∧ chunkDispositionDisconnects ChunkDisposition.oversized = false
      ∧ chunkDispositionBlacklists ChunkDisposition.oversized = false
      ∧ chunkDispositionConnects ChunkDisposition.oversized = false) ∧
    chunkDispositionConnects
        (on_block_headers ⟨Mode.CATCH_UP, 2000, [(0, 4, 0)]⟩ (some (0, 4, 0))
            none (some ⟨160, false, false⟩) true true (Except.ok 3) false
            (0, 0)).2.disposition = true :=
  ⟨chunk_count_handling.1 ⟨Mode.CATCH_UP, 2000, [(0, 3, 0)]⟩ (0, 3, 0)
      ⟨400, false, false⟩ true (Except.ok 5) false (0, 0) (by decide)
      (by decide),
    chunk_count_handling.2 ⟨Mode.CATCH_UP, 2000, [(0, 4, 0)]⟩ (0, 4, 0)
      ⟨160, false, false⟩ true 3 false (0, 0) (by decide) (by decide)
      (by decide) (by decide) (by decide)⟩

/-! ## Request multiplexer and subscription cache (`_process_pending_sends`)

Responses are modelled by an abstract type `α`; callbacks by numeric
identifiers; `subscriptions`, `sub_cache` and `unanswered_requests` as
association lists keyed like the source (`get_index`).  `queued` records
the requests handed to `_queue_request` (method, params, message id), and
`calls` the synchronous callback invocations made by the handler. -/

/-- `Network._get_index`: `str(method) + (':' + str(params[0]) if params
else '')`. -/
def get_index (method : List Char) : List (List Char) → List Char
  | [] => method
  | p0 :: _ => method ++ ':' :: p0

def alist_get {α : Type} (k : List Char) : List (List Char × α) → Option α
  | [] => none
  | (k', v) :: rest => if k' = k then some v else alist_get k rest

def alist_set {α : Type} (k : List Char) (v : α) :
    List (List Char × α) → List (List Char × α)
  | [] => [(k, v)]
  | (k', v') :: rest =>
    if k' = k then (k, v) :: rest else (k', v') :: alist_set k v rest

structure SendState (α : Type) where
  subscriptions : List (List Char × List Nat)
  sub_cache : List (List Char × α)
  unanswered_requests : List (Nat × (List Char × List (List Char) × Nat))
  message_id : Nat
  queued : List (List Char × List (List Char) × Nat)
  calls : List (Nat × α)

/-- One message of `_process_pending_sends`: for a `.subscribe` method the
callback is registered (idempotently) and the cache consulted; a cache
hit invokes the callback synchronously with the cached response and sends
nothing; otherwise the request is queued with a fresh message id and
recorded in `unanswered_requests`. -/
def process_pending_send_message {α : Type} (st : SendState α)
    (method : List Char) (params : List (List Char)) (callback : Nat) :
    SendState α :=
  let k := get_index method params
  let sub := strEndsWith (".subscribe".data) method
  let st₁ :=
    if sub then
      let l := (alist_get k st.subscriptions).getD []
      let l' := if callback ∈ l then l else l ++ [callback]
      { st with subscriptions := alist_set k l' st.subscriptions }
    else st
  let r : Option α := if sub then alist_get k st₁.sub_cache else none
  match r with
  | some resp => { st₁ with calls := st₁.calls ++ [(callback, resp)] }
  | none =>
    let mid := st₁.message_id
    { st₁ with
      message_id := mid + 1
      queued := st₁.queued ++ [(method, params, mid)]
      unanswered_requests :=
        st₁.unanswered_requests ++ [(mid, (method, params, callback))] }

/-- `Network._process_pending_sends` applied to one pending
`(messages, callback)` entry. -/
def process_pending_send {α : Type} (st : SendState α)
    (messages : List (List Char × List (List Char))) (callback : Nat) :
    SendState α :=
  messages.foldl (fun s m => process_pending_send_message s m.1 m.2 callback) st

/-- C4: a `send([(method, params)], cb)` whose subscription index is
cached invokes `cb` synchronously with the cached response during the same
processing pass, queues nothing and records nothing in
`unanswered_requests`; when the index is not cached (or the method is not
a subscription) the request is queued with a fresh message id and
recorded in `unanswered_requests`, with no synchronous call. -/
theorem pending_send_cache_semantics {α : Type} (st : SendState α)
    (method : List Char) (params : List (List Char)) (cb : Nat) :
    (∀ resp : α, strEndsWith (".subscribe".data) method = true →
      alist_get (get_index method params) st.sub_cache = some resp →
        (process_pending_send st [(method, params)] cb).calls
            = st.calls ++ [(cb, resp)]
        ∧ (process_pending_send st [(method, params)] cb).queued = st.queued
        ∧ (process_pending_send st [(method, params)] cb).unanswered_requests
            = st.unanswered_requests
        ∧ (process_pending_send st [(method, params)] cb).message_id
            = st.message_id) ∧
    (strEndsWith (".subscribe".data) method = false
        ∨ alist_get (get_index method params) st.sub_cache = none →
      (process_pending_send st [(method, params)] cb).calls = st.calls
      ∧ (process_pending_send st [(method, params)] cb).queued
          = st.queued ++ [(method, params, st.message_id)]
      ∧ (process_pending_send st [(method, params)] cb).unanswered_requests
          = st.unanswered_requests ++ [(st.message_id, (method, params, cb))]
      ∧ (process_pending_send st [(method, params)] cb).message_id
          = st.message_id + 1) := by
  constructor
  · intro resp hsub hcache
    simp [process_pending_send, process_pending_send_message, hsub, hcache]
  · intro hmiss
    rcases hmiss with hns | hnone
    · simp [process_pending_send, process_pending_send_message, hns]
    · cases hsub : strEndsWith (".subscribe".data) method with
      | false => simp [process_pending_send, process_pending_send_message, hsub]
      | true =>
        simp [process_pending_send, process_pending_send_message, hsub, hnone]

theorem pending_send_cache_semantics_witness :
    ((process_pending_send
        (⟨[("blockchain.scripthash.subscribe:abc".data, [7])],
          [("blockchain.scripthash.subscribe:abc".data, 42)], [], 5, [], []⟩ :
            SendState Nat)
        [("blockchain.scripthash.subscribe".data, ["abc".data])] 9).calls
        = [] ++ [(9, 42)]
      ∧ (process_pending_send
          (⟨[("blockchain.scripthash.subscribe:abc".data, [7])],
            [("blockchain.scripthash.subscribe:abc".data, 42)], [], 5, [], []⟩ :
              SendState Nat)
          [("blockchain.scripthash.subscribe".data, ["abc".data])] 9).queued
          = []
      ∧ (process_pending_send
          (⟨[("blockchain.scripthash.subscribe:abc".data, [7])],
            [("blockchain.scripthash.subscribe:abc".data, 42)], [], 5, [], []⟩ :
              SendState Nat)
          [("blockchain.scripthash.subscribe".data, ["abc".data])]
            9).unanswered_requests
          = []
      ∧ (process_pending_send
          (⟨[("blockchain.scripthash.subscribe:abc".data, [7])],
            [("blockchain.scripthash.subscribe:abc".data, 42)], [], 5, [], []⟩ :
              SendState Nat)
          [("blockchain.scripthash.subscribe".data, ["abc".data])] 9).message_id
          = 5) ∧
    ((process_pending_send
        (⟨[("blockchain.scripthash.subscribe:abc".data, [7])],
          [("blockchain.scripthash.subscribe:abc".data, 42)], [], 5, [], []⟩ :
            SendState Nat)
        [("blockchain.scripthash.get_history".data, ["abc".data])] 9).calls
        = []
      ∧ (process_pending_send
          (⟨[("blockchain.scripthash.subscribe:abc".data, [7])],
            [("blockchain.scripthash.subscribe:abc".data, 42)], [], 5, [], []⟩ :
              SendState Nat)
          [("blockchain.scripthash.get_history".data, ["abc".data])] 9).queued
          = [] ++ [("blockchain.scripthash.get_history".data, ["abc".data], 5)]
      ∧ (process_pending_send
          (⟨[("blockchain.scripthash.subscribe:abc".data, [7])],
            [("blockchain.scripthash.subscribe:abc".data, 42)], [], 5, [], []⟩ :
              SendState Nat)
          [("blockchain.scripthash.get_history".data, ["abc".data])]
            9).unanswered_requests
          = [] ++ [(5, ("blockchain.scripthash.get_history".data,
              ["abc".data], 9))]
      ∧ (process_pending_send
          (⟨[("blockchain.scripthash.subscribe:abc".data, [7])],
            [("blockchain.scripthash.subscribe:abc".data, 42)], [], 5, [], []⟩ :
              SendState Nat)
          [("blockchain.scripthash.get_history".data, ["abc".data])]
            9).message_id
          = 5 + 1) :=
  ⟨(pending_send_cache_semantics
      (⟨[("blockchain.scripthash.subscribe:abc".data, [7])],
        [("blockchain.scripthash.subscribe:abc".data, 42)], [], 5, [], []⟩ :
          SendState Nat)
      ("blockchain.scripthash.subscribe".data) ["abc".data] 9).1 42
      (by decide) (by decide),
    (pending_send_cache_semantics
      (⟨[("blockchain.scripthash.subscribe:abc".data, [7])],
        [("blockchain.scripthash.subscribe:abc".data, 42)], [], 5, [], []⟩ :
          SendState Nat)
      ("blockchain.scripthash.get_history".data) ["abc".data] 9).2
      (Or.inl (by decide))⟩

/-! ## Synchronous requests (`synchronous_get`, `__wait_for`,
`broadcast_transaction`, `sanitized_broadcast_message`) -/

/-- What the 30-second blocking wait on the per-call queue yields: either
the queue stayed empty (`queue.Empty`) or a response arrived, with its
(possibly empty) `error` value and its `result`. -/
inductive WaitInput (α : Type)
  | timeout
  | response (error : Option (List Char)) (result : Option α)

/-- `Network.synchronous_get`: raises a plain `Exception('Server did not
answer')` on timeout and a plain `Exception(error)` on a truthy error
value; otherwise returns `r.get('result')`. -/
def synchronous_get {α : Type} : WaitInput α → Except PyError (Option α)
  | .timeout => .error (.genericError ("Server did not answer".data))
  | .response err res =>
    match err with
    | some m => if m.isEmpty then .ok res else .error (.genericError m)
    | none => .ok res

/-- `Network.__wait_for`: raises `util.TimeoutException` on timeout and
`RPCError(result['error'])` on a truthy error value; otherwise returns
`result.get('result')`. -/
def wait_for {α : Type} : WaitInput α → Except PyError (Option α)
  | .timeout => .error (.timeoutError ("Server did not answer".data))
  | .response err res =>
    match err with
    | some m => if m.isEmpty then .ok res else .error (.rpcError m)
    | none => .ok res

/-- `isinstance(e, RPCError)`. -/
def isRPCError : PyError → Bool
  | .rpcError _ => true
  | _ => false

/-- `isinstance(e, util.TimeoutException)`. -/
def isTimeoutError : PyError → Bool
  | .timeoutError _ => true
  | _ => false

/-- `sanitized_broadcast_message`: map the server error message to one of
the fixed user-facing reasons by substring matching, in source order. -/
def sanitized_broadcast_message (message : Option (List Char)) : List Char :=
  let msg := message.getD []
  if strContainsSub ("dust".data) msg then
    ("very small \"dust\" payments".data)
  else if strContainsSub ("Missing inputs".data) msg
      || strContainsSub ("Inputs unavailable".data) msg
      || strContainsSub ("bad-txns-inputs-spent".data) msg then
    ("missing, already-spent, or otherwise invalid coins".data)
  else if strContainsSub ("insufficient priority".data) msg then
    ("insufficient fees or priority".data)
  else if strContainsSub ("bad-txns-premature-spend-of-coinbase".data) msg then
    ("attempt to spend an unmatured coinbase".data)
  else if strContainsSub ("txn-already-in-mempool".data) msg
      || strContainsSub ("txn-already-known".data) msg then
    ("it already exists in the server\x27s mempool".data)
  else if strContainsSub ("txn-mempool-conflict".data) msg then
    ("it conflicts with one already in the server\x27s mempool".data)
  else if strContainsSub ("bad-txns-nonstandard-inputs".data) msg then
    ("use of non-standard input scripts".data)
  else if strContainsSub ("absurdly-high-fee".data) msg then
    ("fee is absurdly high".data)
  else if strContainsSub ("non-mandatory-script-verify-flag".data) msg then
    ("the script fails verification".data)
  else if strContainsSub ("tx-size".data) msg then
    ("transaction is too large".data)
  else if strContainsSub ("scriptsig-size".data) msg then
    ("it contains an oversized script".data)
  else if strContainsSub ("scriptpubkey".data) msg then
    ("it contains a non-standard signature".data)
  else if strContainsSub ("bare-multisig".data) msg then
    ("it contains a bare multisig input".data)
  else if strContainsSub ("multi-op-return".data) msg then
    ("it contains more than 1 OP_RETURN input".data)
  else if strContainsSub ("scriptsig-not-pushonly".data) msg then
    ("a scriptsig is not simply data".data)
  else if strContainsSub ("bad-txns-nonfinal".data) msg then
    ("transaction is not final".data)
  else
    ("reason unknown".data)

/-- Python `int(s, 16)` acceptance (optional sign, hex digits). -/
def py_hex_int_ok (s : List Char) : Bool :=
  let isHex : Char → Bool := fun c =>
    c.isDigit || ('a' ≤ c && c ≤ 'f') || ('A' ≤ c && c ≤ 'F')
  match s with
  | [] => false
  | c :: r =>
    if c = '+' || c = '-' then !r.isEmpty && r.all isHex
    else (c :: r).all isHex

inductive BroadcastOutcome
  | returns (ok : Bool) (msg : List Char)
  | raises (e : PyError)
  deriving Repr, DecidableEq

/-- `Network.broadcast_transaction`: wraps `__wait_for`.  The `except
RPCError as e` clause returns a sanitised failure message.  The `except
util.TimeoutException` clause executes `return False, e.args[0]`, but `e`
is only bound by the sibling `RPCError` clause (and Python deletes the
`except ... as e` binding at clause exit), so this path raises
`NameError`.  On success, a server txid differing from ours is accepted
with a warning when it parses as hex, and reported as a bad response
otherwise; a `None` result makes `int(their_txid, 16)` raise
`TypeError`. -/
def broadcast_transaction (ourTxid : List Char) (w : WaitInput (List Char)) :
    BroadcastOutcome :=
  match wait_for w with
  | .error (.rpcError m) =>
    .returns false (("transaction broadcast failed: ".data)
      ++ sanitized_broadcast_message (some m))
  | .error (.timeoutError _) => .raises .nameError
  | .error e => .raises e
  | .ok theirTxid =>
    match theirTxid with
    | none => .raises .typeError
    | some t =>
      if t ≠ ourTxid then
        if py_hex_int_ok t then
          .returns true ourTxid
        else
          .returns false (("bad server response; it is unknown whether "
            ++ "the transaction broadcast succeeded").data)
      else
        .returns true ourTxid

/-- C5: when no response arrives within the 30-second wait,
`broadcast_transaction` does not return `(False, "timeout")` — the
timeout handler's `return False, e.args[0]` references `e`, which no
enclosing scope binds on this path, so the call raises `NameError` to
the caller. -/
theorem broadcast_transaction_timeout_raises :
    broadcast_transaction ("ab12".data) WaitInput.timeout
        = BroadcastOutcome.raises PyError.nameError
    ∧ BroadcastOutcome.raises PyError.nameError
        ≠ BroadcastOutcome.returns false ("timeout".data) :=
  ⟨rfl, by decide⟩

/-- C6 counterexample: `synchronous_get` raises `Exception(...)` — the
base class, not `RPCError` — on a truthy error value, and
`Exception('Server did not answer')` — not a `Timeout` kind — when no
response arrives, contradicting the claimed exception kinds. -/
theorem synchronous_get_error_kinds_counterexample :
    synchronous_get (α := Nat) (.response (some ("boom".data)) none)
        = .error (.genericError ("boom".data))
    ∧ isRPCError (.genericError ("boom".data)) = false
    ∧ synchronous_get (α := Nat) .timeout
        = .error (.genericError ("Server did not answer".data))
    ∧ isTimeoutError (.genericError ("Server did not answer".data)) = false :=
  ⟨rfl, rfl, rfl, rfl⟩

/-- C6 (amended): `synchronous_get` raises a plain `Exception` carrying
the error value when the response has a truthy error field, a plain
`Exception('Server did not answer')` on timeout (neither of kind
`RPCError` nor of a timeout kind — those are raised by `__wait_for`, not
`synchronous_get`), and otherwise returns the response's result field. -/
theorem synchronous_get_exception_kinds {α : Type} :
    (∀ (m : List Char) (res : Option α), m.isEmpty = false →
      synchronous_get (.response (some m) res) = .error (.genericError m)
      ∧ isRPCError (.genericError m) = false
      ∧ isTimeoutError (.genericError m) = false) ∧
    (synchronous_get (α := α) .timeout
        = .error (.genericError ("Server did not answer".data))) ∧
    (∀ res : Option α, synchronous_get (.response none res) = .ok res) := by
  refine ⟨?_, rfl, fun res => rfl⟩
  intro m res hm
  exact ⟨by simp [synchronous_get, hm], rfl, rfl⟩

theorem synchronous_get_exception_kinds_witness :
    (synchronous_get (α := Nat) (.response (some ("err!".data)) none)
        = .error (.genericError ("err!".data))
      ∧ isRPCError (.genericError ("err!".data)) = false
      ∧ isTimeoutError (.genericError ("err!".data)) = false) ∧
    (synchronous_get (α := Nat) .timeout
        = .error (.genericError ("Server did not answer".data))) ∧
    (synchronous_get (α := Nat) (.response none (some 3)) = .ok (some 3)) :=
  ⟨(synchronous_get_exception_kinds (α := Nat)).1 ("err!".data) none
      (by decide),
    (synchronous_get_exception_kinds (α := Nat)).2.1,
    (synchronous_get_exception_kinds (α := Nat)).2.2 (some 3)⟩

/-! ## Relay fee (`_process_response`, `blockchain.relayfee` branch)

The branch executes `self.relay_fee = int(result * COIN)` where `result`
is the JSON float from the wire, i.e. the IEEE-754 binary64 value nearest
to the decimal literal, and the multiplication is binary64 arithmetic.
Binary64 is exact rational arithmetic with rounding, embedded here with
explicit scaled integers: a double with value in `[2^(e), 2^(e+1))` is an
integer significand in `[2^52, 2^53)` times `2^(e-52)`. -/

def COIN : Nat := 100000000

/-- Round `num / den` to the nearest integer, ties to even (the IEEE-754
round-to-nearest-even applied at each binary64 rounding step). -/
def rnd_half_even (num den : Nat) : Nat :=
  let q := num / den
  let r := num % den
  if 2 * r < den then q
  else if den < 2 * r then q + 1
  else if q % 2 = 0 then q else q + 1

/-- The binary64 double nearest to the wire literal `1.234e-5`
(= 1234/10^8 exactly): its value lies in `[2^-17, 2^-16)`, so the double
is `sig_1_234em5 * 2^-69` with `sig_1_234em5 ∈ [2^52, 2^53)`. -/
def sig_1_234em5 : Nat := rnd_half_even (1234 * 2 ^ 69) (10 ^ 8)

/-- The binary64 product `double(1.234e-5) * COIN` scaled by `2^42`: the
exact product `sig_1_234em5 * COIN / 2^69` lies in `[2^10, 2^11)`, so its
ulp is `2^-42` and rounding divides the `2^69`-scaled value by `2^27`. -/
def prod_scaled42 : Nat := rnd_half_even (sig_1_234em5 * COIN) (2 ^ 27)

/-- `relay_fee` as stored by the `blockchain.relayfee` branch for the
result `1.234e-5`: `int(...)` truncates the (positive) product toward
zero, i.e. floor of `prod_scaled42 * 2^-42`. -/
def relay_fee_1_234em5 : Nat := prod_scaled42 / 2 ^ 42

/-- C9: processing a `blockchain.relayfee` response with result
`1.234e-5` stores the integer 1234 (= `round(1.234e-5 * COIN)`).  The
first two conjuncts certify the exponent choices of the two binary64
roundings (significands normalised to `[2^52, 2^53)`, exact product in
`[2^10, 2^11)`); the product is exactly `1234.0`, so the code's `int()`
truncation agrees with the claim's `round`. -/
theorem relayfee_result_value :
    (2 ^ 52 ≤ sig_1_234em5 ∧ sig_1_234em5 < 2 ^ 53) ∧
    (2 ^ 79 ≤ sig_1_234em5 * COIN ∧ sig_1_234em5 * COIN < 2 ^ 80) ∧
    prod_scaled42 = 1234 * 2 ^ 42 ∧
    relay_fee_1_234em5 = 1234 := by
  refine ⟨⟨?_, ?_⟩, ⟨?_, ?_⟩, ?_, ?_⟩ <;> decide
